import Mathlib

/-!
Verification of the zwave-mqtt-bridge translation layer.

The Python sources (`zw_node.py`, `bridge.py`, `actions.py`, `devices.py`,
`hass_mqtt.py`) are shallowly embedded below: machine integers and Unix
timestamps become `Int`/`Nat`, Python `float` sensor payloads become `Rat`,
Python dicts become association lists with first-match lookup, Python
exceptions become `Except PyErr`, and the one unbounded `while` loop
(label-suffix generation) takes an explicit fuel argument whose exhaustion is
reported as `PyErr.loopFuel`.
-/

/-- Python exception kinds that the embedded code can raise.  `loopFuel` is not
a Python exception: it marks exhaustion of the fuel bounding the unbounded
`while` loop in `Labels.get_true_label` (which can genuinely diverge). -/
inductive PyErr where
  | indexError
  | valueError
  | attributeError
  | healError
  | jsonError
  | loopFuel
deriving DecidableEq, Repr

/-- Decimal digit list of a natural number, most significant digit first.
This is the list that `Nat.toDigitsCore` builds. -/
def decDigits (n : Nat) : List Char :=
  if _h : n < 10 then [Nat.digitChar n]
  else decDigits (n / 10) ++ [Nat.digitChar (n % 10)]
decreasing_by exact Nat.div_lt_self (by omega) (by omega)

/-- Value recovered from a digit list by Horner evaluation. -/
def decVal (cs : List Char) : Nat :=
  cs.foldl (fun a c => 10 * a + (c.toNat - 48)) 0

/-! ## Labels (`zw_node.py`, class `Labels`)

`Labels` maps `str(command_class) + str(value_id)` to an assigned label and
keeps a taken-set of `str(command_class) + label` strings.  Python negative
indexing (`label[-2]`) raises `IndexError` when the string is too short, and
`int(ch)` raises `ValueError` on a non-digit; both are modelled explicitly. -/

/-- `Labels._format_label`: `label.lower().replace(" ", "_")`.  The call site
replaces the single character `" "`, so lowering and mapping each character is
an exact model. -/
def _format_label (label : String) : String :=
  String.mk (label.data.map (fun c =>
    let lc := c.toLower
    if lc = ' ' then '_' else lc))

/-- Python `s[-i]` on the character list `cs` (raises `IndexError` out of range). -/
def pyNegIdx (cs : List Char) (i : Nat) : Except PyErr Char :=
  if h : 1 ≤ i ∧ i ≤ cs.length then .ok (cs.get ⟨cs.length - i, by omega⟩)
  else .error .indexError

/-- Python `int(c)` for a single character (raises `ValueError` on a non-digit). -/
def pyCharInt (c : Char) : Except PyErr Nat :=
  if c.isDigit then .ok (c.toNat - 48) else .error .valueError

/-- One iteration body of the suffix-bumping `while` loop in
`Labels.get_true_label`: `label[-2] == "_"` / `label[-3] == "_"` dispatch with
Python's evaluation order and exceptions. -/
def bumpLabel (label : String) : Except PyErr String := do
  let cs := label.data
  let c2 ← pyNegIdx cs 2
  if c2 = '_' then do
    let c1 ← pyNegIdx cs 1
    let v ← pyCharInt c1
    pure (String.mk (cs.take (cs.length - 2)) ++ "_" ++ Nat.repr (v + 1))
  else do
    let c3 ← pyNegIdx cs 3
    if c3 = '_' then do
      let c2b ← pyNegIdx cs 2
      let v ← pyCharInt c2b
      pure (String.mk (cs.take (cs.length - 3)) ++ "_" ++ Nat.repr (v + 1))
    else
      pure (label ++ "_2")

/-- The `while str(value.command_class) + label in self._taken_labels` loop,
with fuel (the source loop is unbounded and can diverge). -/
def freshLabel (ccs : String) (taken : List String) : Nat → String → Except PyErr String
  | 0, _ => .error .loopFuel
  | fuel + 1, label =>
    if (ccs ++ label) ∈ taken then
      match bumpLabel label with
      | .ok next => freshLabel ccs taken fuel next
      | .error e => .error e
    else
      .ok label

/-- State of a `Labels` instance: `_label_map` and `_taken_labels`. -/
structure LabelsState where
  labelMap : List (String × String)
  taken : List String
deriving DecidableEq, Repr

/-- `str(value.command_class) + str(value.value_id)`, the `_label_map` key. -/
def labelKey (cc vid : Nat) : String := Nat.repr cc ++ Nat.repr vid

/-- The assignment branch of `Labels.get_true_label`: run the `while` loop,
then record the final label in the taken-set and the label map. -/
def assignLabel (st : LabelsState) (cc : Nat) (key lbl : String) (fuel : Nat) :
    Except PyErr (String × LabelsState) :=
  match freshLabel (Nat.repr cc) st.taken fuel lbl with
  | .error e => .error e
  | .ok l => .ok (l, ⟨(key, l) :: st.labelMap, (Nat.repr cc ++ l) :: st.taken⟩)

/-- `Labels.get_true_label` for a value with the given command class, value id
and raw label.  Note Python's `if not true_name:` treats a stored empty string
like a missing entry. -/
def get_true_label (st : LabelsState) (cc vid : Nat) (raw : String) (fuel : Nat) :
    Except PyErr (String × LabelsState) :=
  let lbl := _format_label raw
  let key := labelKey cc vid
  match st.labelMap.lookup key with
  | some name => if name = "" then assignLabel st cc key lbl fuel else .ok (name, st)
  | none => assignLabel st cc key lbl fuel

/-- One `get_true_label` request: command class, value id, raw label. -/
structure LabelReq where
  cc : Nat
  vid : Nat
  raw : String
deriving DecidableEq, Repr

/-- Run a sequence of `get_true_label` calls against one `Labels` instance.
A call that raises leaves the state unchanged (the source mutates the maps
only after the loop finishes) and yields `none`. -/
def runLabels (fuel : Nat) : LabelsState → List LabelReq → List (Option String) × LabelsState
  | st, [] => ([], st)
  | st, r :: rs =>
    match get_true_label st r.cc r.vid r.raw fuel with
    | .ok (l, st') =>
      let p := runLabels fuel st' rs
      (some l :: p.1, p.2)
    | .error _ =>
      let p := runLabels fuel st rs
      (none :: p.1, p.2)

/-- Invariant of a `Labels` state for a single command class `c`: every mapped
label is in the taken-set, and distinct keys carry distinct non-empty labels. -/
def LInv (c : Nat) (st : LabelsState) : Prop :=
  (∀ k l, st.labelMap.lookup k = some l → (Nat.repr c ++ l) ∈ st.taken) ∧
  (∀ k1 k2 l1 l2, st.labelMap.lookup k1 = some l1 → st.labelMap.lookup k2 = some l2 →
    k1 ≠ k2 → l1 ≠ "" → l2 ≠ "" → l1 ≠ l2)

/-! ## Python values (`Metrics` payloads) -/

/-- Dynamic Python value as it occurs in `value.data`: bool, int, float
(modelled as `Rat`) or string.  Note `isinstance(True, float)` is false in
Python, so the float branch of `Metrics._get_true_value` does not see bools. -/
inductive PyVal where
  | pyBool : Bool → PyVal
  | pyInt : Int → PyVal
  | pyFloat : Rat → PyVal
  | pyStr : String → PyVal
deriving DecidableEq, Repr

/-- Two-decimal formatting `"%.2f" % q` of a rational.  The exact behaviour at
ties (printf rounds half-to-even on binary doubles) is immaterial to every
claim below; away from ties this is exact. -/
def formatTwoDec (q : Rat) : String :=
  let n : Int := round (q * 100)
  let a := n.natAbs
  (if n < 0 then "-" else "") ++ Nat.repr (a / 100) ++ "." ++
    (if a % 100 < 10 then "0" else "") ++ Nat.repr (a % 100)

/-- `Metrics._get_true_value`: floats are replaced by their two-decimal string
formatting; every other value (including booleans) passes through unchanged. -/
def _get_true_value : PyVal → PyVal
  | .pyFloat q => .pyStr (formatTwoDec q)
  | v => v

/-! ## Metrics (`zw_node.py`, class `Metrics`) -/

/-- State of a `Metrics` instance: `_data`, `_dirty`, `_last_metric_ts`. -/
structure MetricsState where
  data : List (String × PyVal)
  dirty : Bool
  lastMetricTs : Int
deriving DecidableEq, Repr

/-- Python dict assignment `d[k] = v`: replace in place, or append a new key. -/
def setAssoc : List (String × PyVal) → String → PyVal → List (String × PyVal)
  | [], k, v => [(k, v)]
  | p :: rest, k, v => if p.1 = k then (k, v) :: rest else p :: setAssoc rest k v

/-- `Metrics.set_direct`. -/
def set_direct (ms : MetricsState) (key : String) (v : PyVal) : MetricsState :=
  match ms.data.lookup key with
  | some old =>
    if old ≠ v then { ms with data := setAssoc ms.data key v, dirty := true } else ms
  | none => { ms with data := setAssoc ms.data key v, dirty := true }

/-- `Metrics.set_from_value`: resolve the label, drop ignored labels, normalize
the payload with `_get_true_value`, store and mark dirty only on change. -/
def set_from_value (ms : MetricsState) (ls : LabelsState) (ignored : List String)
    (cc vid : Nat) (raw : String) (v : PyVal) (fuel : Nat) :
    Except PyErr (MetricsState × LabelsState) :=
  match get_true_label ls cc vid raw fuel with
  | .error e => .error e
  | .ok (label, ls') =>
    if label ∈ ignored then .ok (ms, ls')
    else
      let newValue := _get_true_value v
      match ms.data.lookup label with
      | some old =>
        if old ≠ newValue then
          .ok ({ ms with data := setAssoc ms.data label newValue, dirty := true }, ls')
        else .ok (ms, ls')
      | none => .ok ({ ms with data := setAssoc ms.data label newValue, dirty := true }, ls')

/-! ## Spam governor (`ZwNode.is_spamming`) -/

/-- `ZwNode.is_spamming`.  State is `_spam_tick = (last_time, count)`; `now` is
the integer Unix time.  Returns the new state and the boolean result
(`count == 0` after the update). -/
def is_spamming (now : Int) (tick : Int × Int) : (Int × Int) × Bool :=
  let intervals := now - tick.1
  let lastTime1 := if intervals > 10 then now else tick.1
  let count1 := if intervals > 10 then min (tick.2 + intervals) 100 else tick.2
  let count2 :=
    if count1 > 0 then (if count1 - 1 = 0 then (-60 : Int) else count1 - 1) else count1
  ((lastTime1, count2), decide (count2 = 0))

/-- A burst of `n` consecutive `is_spamming` calls at one timestamp, collecting
each call's boolean result. -/
def spamBurst (now : Int) : Int × Int → Nat → List Bool × (Int × Int)
  | tick, 0 => ([], tick)
  | tick, n + 1 =>
    let r := is_spamming now tick
    let p := spamBurst now r.1 n
    (r.2 :: p.1, p.2)

/-! ## Bridge (`bridge.py`)

The command-class constants come from `zwave_mqtt_bridge.command_classes`,
which is not among the provided sources. -/

/-- Modelled from the spec: `command_classes.py` is absent from the sources, so
the constants are taken as the standard Z-Wave command class numbers the spec
glossary describes (switch, dimmer, color, sensor, notification).  No claim
depends on the numeric values, only on their being distinct. -/
def COMMAND_CLASS_SWITCH : Nat := 37

/-- Modelled from the spec: see `COMMAND_CLASS_SWITCH`. -/
def COMMAND_CLASS_DIMMER : Nat := 38

/-- Modelled from the spec: see `COMMAND_CLASS_SWITCH`. -/
def COMMAND_CLASS_RGB : Nat := 51

/-- Modelled from the spec: see `COMMAND_CLASS_SWITCH`. -/
def COMMAND_CLASS_NOTIFICATION : Nat := 113

/-- Modelled from the spec: see `COMMAND_CLASS_SWITCH`.  The sensor
command-class set. -/
def SENSORS : List Nat := [48, 49, 50]

/-- Per-node state that `Bridge.value_update` touches directly. -/
structure NodeState where
  spamTick : Int × Int
  metricsData : List (String × PyVal)
  filters : List (Nat × Option PyVal)
deriving DecidableEq, Repr

/-- `ZwNode.__init__`: fresh node state (`_spam_tick = (time.time(), 600)`). -/
def initNode (now : Int) : NodeState := ⟨(now, 600), [], []⟩

/-- Outcome behaviour of the external heal collaborator (`network.is_ready`
and `network.heal(True)`). -/
structure HealEnv where
  ready : Bool
  heal : Except PyErr Unit

/-- Bridge-global state used by `check_for_repair`, `value_update` and
`_on_message`. -/
structure BridgeState where
  healing : Bool
  lastRepairAttempt : Int
  repairTime : Int
  lastConfig : Int
  ignoredLabels : List String
  nodes : List (String × NodeState)
deriving DecidableEq, Repr

/-- `Bridge.check_for_repair`.  The source guards with a 5-minute throttle and
a per-calendar-day index, and wraps `network.heal(True)` in `try/finally`
(no `except`): the `finally` always clears `_healing` and advances
`_repair_time`, while an exception from the heal continues to propagate.
Returns the resulting state and the escaping exception, if any. -/
def check_for_repair (now : Int) (env : HealEnv) (s : BridgeState) :
    BridgeState × Option PyErr :=
  if now - s.lastRepairAttempt > 5 * 60 then
    let s1 := { s with lastRepairAttempt := now }
    if env.ready then
      let day := now / (24 * 60 * 60)
      if day ≠ s1.repairTime then
        let s3 := { s1 with healing := false, repairTime := day }
        match env.heal with
        | .ok _ => (s3, none)
        | .error e => (s3, some e)
      else (s1, none)
    else (s1, none)
  else (s, none)

/-- One value-send operation on a node (`ZwNode` methods such as
`send_dimmer_data`): may mutate the node and publish messages, or raise. -/
def SendFn : Type := NodeState → Except PyErr (NodeState × List String)

/-- The node send operations `Bridge.value_update` dispatches to.  On this
snapshot `ZwNode` does not define `send_dimmer_data` / `send_rgb_data` /
`send_switch_data` / `send_sensor_data` (only underscore-prefixed variants and
`update_state`), so the attribute lookups in `bridge.py` raise
`AttributeError`; the handlers are kept as parameters so both that behaviour
and hypothetical working handlers can be instantiated. -/
structure Handlers where
  dimmer : SendFn
  rgb : SendFn
  switch : SendFn
  sensor : SendFn

/-- Handlers matching this source snapshot: every `n.send_*_data()` attribute
lookup on `ZwNode` raises `AttributeError`. -/
def missingMethodHandlers : Handlers :=
  ⟨fun _ => .error .attributeError, fun _ => .error .attributeError,
   fun _ => .error .attributeError, fun _ => .error .attributeError⟩

/-- In-place update of one node in the bridge's node dict. -/
def updateNode (nodes : List (String × NodeState)) (name : String) (n : NodeState) :
    List (String × NodeState) :=
  nodes.map (fun p => if p.1 = name then (name, n) else p)

/-- An inbound value event as `value_update` sees it. -/
structure ValueEvent where
  nodeName : String
  genre : String
  label : String
  commandClass : Nat
deriving DecidableEq, Repr

/-- Run a single node send operation from `value_update`, writing the mutated
node back into the bridge state; an exception escapes (there is no
`try/except` in `value_update`). -/
def sendOne (s : BridgeState) (name : String) (hf : SendFn) (n : NodeState) :
    BridgeState × List String × Option PyErr :=
  match hf n with
  | .error e => (s, [], some e)
  | .ok (n2, pub) => ({ s with nodes := updateNode s.nodes name n2 }, pub, none)

/-- `Bridge.value_update`: heal check, healing gate, lazy node creation, genre
and registration gates, ignored-label filter, spam governor, then dispatch by
command class.  Returns the new state, the published messages, and the
exception escaping the dispatch boundary, if any. -/
def value_update (now : Int) (env : HealEnv) (h : Handlers) (ev : ValueEvent)
    (s0 : BridgeState) : BridgeState × List String × Option PyErr :=
  let cr := check_for_repair now env s0
  match cr.2 with
  | some e => (cr.1, [], some e)
  | none =>
    let s := cr.1
    if s.healing then (s, [], none)
    else
      let pn :=
        match s.nodes.lookup ev.nodeName with
        | some n => (n, s)
        | none =>
          let n := initNode now
          (n, { s with nodes := (ev.nodeName, n) :: s.nodes })
      let n := pn.1
      let s1 := pn.2
      if ev.genre = "User" then
        if s1.lastConfig ≠ 0 then
          if ev.label.toLower ∈ s1.ignoredLabels then (s1, [], none)
          else
            let sp := is_spamming now n.spamTick
            let n1 := { n with spamTick := sp.1 }
            let s2 := { s1 with nodes := updateNode s1.nodes ev.nodeName n1 }
            if sp.2 then (s2, [], none)
            else if ev.commandClass = COMMAND_CLASS_DIMMER then
              match h.dimmer n1 with
              | .error e => (s2, [], some e)
              | .ok (n2, pub1) =>
                let s3 := { s2 with nodes := updateNode s2.nodes ev.nodeName n2 }
                match h.rgb n2 with
                | .error e => (s3, pub1, some e)
                | .ok (n3, pub2) =>
                  ({ s3 with nodes := updateNode s3.nodes ev.nodeName n3 },
                    pub1 ++ pub2, none)
            else if ev.commandClass = COMMAND_CLASS_SWITCH then
              sendOne s2 ev.nodeName h.switch n1
            else if ev.commandClass = COMMAND_CLASS_RGB then
              sendOne s2 ev.nodeName h.rgb n1
            else if ev.commandClass = COMMAND_CLASS_NOTIFICATION then
              sendOne s2 ev.nodeName h.sensor n1
            else if ev.commandClass ∈ SENSORS then
              sendOne s2 ev.nodeName h.sensor n1
            else (s2, [], none)
        else (s1, [], none)
      else (s1, [], none)

/-- `Bridge._on_message`: healing gate, then `try`-wrapped topic lookup and
action invocation; every exception from the action is caught and logged.
Returns `.ok true` when an action was invoked, `.ok false` otherwise; an
`.error` result would mean an exception escaped the boundary. -/
def _on_message (healing : Bool) (actions : List (String × (String → Except PyErr Unit)))
    (topic data : String) : Except PyErr Bool :=
  if healing then .ok false
  else
    match actions.lookup topic with
    | some act =>
      match act data with
      | .ok _ => .ok true
      | .error _ => .ok true
    | none => .ok false

/-! ## Dimmer scaling and change filter (`zw_node.py`, `hass_mqtt.py`,
`devices.py`) -/

/-- `ZwNode._scale_to_hass`: `int(data * 255 / 95)` (truncating division). -/
def _scale_to_hass (data : Nat) : Nat := data * 255 / 95

/-- `DimmerDevice._hass_brightness` (legacy `devices.py` path):
`int(value * 255 / 99)`. -/
def _hass_brightness (value : Nat) : Nat := value * 255 / 99

/-- The brightness formula as the spec words it: `round(value * 255 / 99)`. -/
def spec_round_brightness (value : Nat) : Int := round ((value * 255 : Rat) / 99)

/-- `HassCommand.should_status_send`: publish only when the payload differs
from the last one sent, updating the stored payload. -/
def should_status_send (last : Option Nat) (data : Nat) : Bool × Option Nat :=
  if some data = last then (false, last) else (true, some data)

/-- One dimmer value-point pass of `ZwNode._send_dimmer_data`: scale the level,
run the change filter, publish on change.  Returns the new filter state and
the published brightness values. -/
def _send_dimmer_one (last : Option Nat) (level : Nat) : Option Nat × List Nat :=
  let data := _scale_to_hass level
  let r := should_status_send last data
  if r.1 then (r.2, [data]) else (r.2, [])

/-! ## Switch action (`actions.py`, `SwitchAction.action`) -/

/-- The byte string `b"ON"`. -/
def bON : List Nat := [79, 78]

/-- The byte string `b"True"`. -/
def bTrue : List Nat := [84, 114, 117, 101]

/-- `SwitchAction.action` body: `toggle = data in [b"ON", b"True"]`, then
`set_switch(id, toggle)`.  No operation in the body can raise; the value sent
to the switch is returned. -/
def switch_action (data : List Nat) : Except PyErr Bool :=
  .ok (decide (data = bON ∨ data = bTrue))

/-! ## Node registration (`ZwNode.register` and helpers) -/

/-- An actionable value-point (switch / dimmer / RGB bulb): value id and raw
label, as returned by `get_switches()` / `get_dimmers()` / `get_rgbbulbs()`. -/
structure ActPoint where
  vid : Nat
  raw : String
deriving DecidableEq, Repr

/-- A sensor-style value-point: command class, value id, raw label and current
payload, as returned by `get_sensors()` /
`get_values_for_command_class(COMMAND_CLASS_NOTIFICATION)`. -/
structure SensorPoint where
  cc : Nat
  vid : Nat
  raw : String
  payload : PyVal
deriving DecidableEq, Repr

/-- The capability lists the network collaborator exposes for one device. -/
structure ZwNodeCaps where
  location : String
  name : String
  switches : List ActPoint
  dimmers : List ActPoint
  rgbbulbs : List ActPoint
  sensors : List SensorPoint
  notifications : List SensorPoint
  batteryLevel : Option Int
deriving DecidableEq, Repr

/-- Key of the `ZwNode._cmds` dict, which mixes integer value ids with the
string key `"metrics"`. -/
inductive CmdKey where
  | value : Nat → CmdKey
  | metricsKey : CmdKey
deriving DecidableEq, Repr

/-- A registered MQTT binding (`HassCommand` / `HassDimmer` / `HassRgbLight` /
`HassSensor`): topic strings, the per-binding change filter
(`_last_status_payload`), and for sensors the metric-name set. -/
structure HassCmd where
  deviceType : String
  command : String
  status : String
  lastStatusPayload : Option PyVal
  metricNames : List String
deriving DecidableEq, Repr

/-- `HassCommand.__init__`: topic construction (the raw `location` parameter is
used for the topics, unlike `HassSensor`). -/
def mkHassCommand (location deviceType name secondName : String) : HassCmd :=
  ⟨deviceType,
   location ++ "/" ++ deviceType ++ "/" ++ name ++ "/" ++ secondName ++ "/set",
   location ++ "/" ++ deviceType ++ "/" ++ name ++ "/" ++ secondName ++ "/status",
   none, []⟩

/-- `HassSensor.__init__`: the status topic uses the `HassBase` domain, which
falls back to `"house"` on an empty location. -/
def mkHassSensor (location name : String) : HassCmd :=
  let domain := if location = "" then "house" else location
  ⟨"sensor", "", domain ++ "/sensor/" ++ name ++ "/sensor", none, []⟩

/-- A command action bound to a topic (`SwitchAction` / `DimmerAction` /
`RgbAction` with its value id). -/
inductive ZAction where
  | switchAction : Nat → ZAction
  | dimmerAction : Nat → ZAction
  | rgbAction : Nat → ZAction
deriving DecidableEq, Repr

/-- Registration state of one `ZwNode`: labels, metrics, `_cmds`, `_topics`
and `_data_hooks`. -/
structure NodeRegState where
  labels : LabelsState
  metrics : MetricsState
  cmds : List (CmdKey × HassCmd)
  topics : List (String × ZAction)
  dataHooks : List String
  ignored : List String
deriving DecidableEq, Repr

/-- Fresh registration state for a node (`ZwNode.__init__`). -/
def initReg (ignored : List String) : NodeRegState :=
  ⟨⟨[], []⟩, ⟨[], false, 0⟩, [], [], [], ignored⟩

/-- Python `set.add` on the data-hook set. -/
def addHook (hooks : List String) (h : String) : List String :=
  if h ∈ hooks then hooks else h :: hooks

/-- Python `set.add` on a `HassSensor` metric-name set. -/
def addMetricName (names : List String) (m : String) : List String :=
  if m ∈ names then names else names ++ [m]

/-- Register one actionable value-point: resolve its label (twice, as the
source also resolves it for the log line), build the binding, record the
topic action and the data hook.  Shared by the switch, dimmer and RGB loops. -/
def registerAct (st : NodeRegState) (caps : ZwNodeCaps) (cc : Nat) (deviceType : String)
    (mkAct : Nat → ZAction) (hook : String) (p : ActPoint) (fuel : Nat) :
    Except PyErr NodeRegState :=
  if (st.cmds.lookup (CmdKey.value p.vid)).isSome then .ok st
  else
    match get_true_label st.labels cc p.vid p.raw fuel with
    | .error e => .error e
    | .ok (label, ls1) =>
      match get_true_label ls1 cc p.vid p.raw fuel with
      | .error e => .error e
      | .ok (_, ls2) =>
        let cmd := mkHassCommand caps.location deviceType caps.name label
        .ok { st with
              labels := ls2,
              cmds := (CmdKey.value p.vid, cmd) :: st.cmds,
              topics := (cmd.command, mkAct p.vid) :: st.topics,
              dataHooks := addHook st.dataHooks hook }

/-- The shared shape of the three `_register_*` loops over actionable
value-points. -/
def registerLoop (caps : ZwNodeCaps) (cc : Nat) (deviceType : String)
    (mkAct : Nat → ZAction) (hook : String) :
    NodeRegState → List ActPoint → Nat → Except PyErr NodeRegState
  | st, [], _ => .ok st
  | st, p :: rest, fuel =>
    match registerAct st caps cc deviceType mkAct hook p fuel with
    | .error e => .error e
    | .ok st' => registerLoop caps cc deviceType mkAct hook st' rest fuel

/-- `ZwNode._register_switches`. -/
def _register_switches (caps : ZwNodeCaps) :
    NodeRegState → List ActPoint → Nat → Except PyErr NodeRegState :=
  registerLoop caps COMMAND_CLASS_SWITCH "switch" ZAction.switchAction "send_switch_data"

/-- `ZwNode._register_dimmers`. -/
def _register_dimmers (caps : ZwNodeCaps) :
    NodeRegState → List ActPoint → Nat → Except PyErr NodeRegState :=
  registerLoop caps COMMAND_CLASS_DIMMER "light" ZAction.dimmerAction "send_dimmer_data"

/-- `ZwNode._register_rgbw` (the found-flag is `caps.rgbbulbs ≠ []`, computed
in `register` itself). -/
def _register_rgbw (caps : ZwNodeCaps) :
    NodeRegState → List ActPoint → Nat → Except PyErr NodeRegState :=
  registerLoop caps COMMAND_CLASS_RGB "light" ZAction.rgbAction "send_rgb_data"

/-- Resolve the labels of a list of sensor points, collecting the metric names
(each point resolves its label twice, as in the source's log line). -/
def collectMetricNames :
    LabelsState → List String → List SensorPoint → Nat →
      Except PyErr (List String × LabelsState)
  | ls, names, [], _ => .ok (names, ls)
  | ls, names, p :: rest, fuel =>
    match get_true_label ls p.cc p.vid p.raw fuel with
    | .error e => .error e
    | .ok (label, ls1) =>
      match get_true_label ls1 p.cc p.vid p.raw fuel with
      | .error e => .error e
      | .ok (_, ls2) => collectMetricNames ls2 (addMetricName names label) rest fuel

/-- Python `dict.update` on value dicts keyed by value id: existing ids are
overwritten in place, new ids are appended in order. -/
def dictUpdate (base upd : List SensorPoint) : List SensorPoint :=
  (base.map fun s => ((upd.find? (fun u => u.vid == s.vid)).getD s)) ++
    upd.filter (fun u => !(base.any (fun s => s.vid == u.vid)))

/-- `ZwNode._collect_initial_sensor_data` body: feed every sensor and
notification value into the metrics aggregator, then the battery level. -/
def collectInitialData (ms : MetricsState) (ls : LabelsState) (ignored : List String) :
    List SensorPoint → Nat → Except PyErr (MetricsState × LabelsState)
  | [], _ => .ok (ms, ls)
  | p :: rest, fuel =>
    match set_from_value ms ls ignored p.cc p.vid p.raw p.payload fuel with
    | .error e => .error e
    | .ok (ms1, ls1) => collectInitialData ms1 ls1 ignored rest fuel

/-- Python truthiness of `get_battery_level()` (an `if battery:` check). -/
def batteryTruthy : Option Int → Bool
  | some b => decide (b ≠ 0)
  | none => false

/-- `ZwNode._register_sensors`: build the metrics binding, resolve every
sensor/notification label into the metric-name set, add `"battery"` when
present, then run the initial data collection. -/
def _register_sensors (caps : ZwNodeCaps) (st : NodeRegState) (fuel : Nat) :
    Except PyErr NodeRegState :=
  match collectMetricNames st.labels [] (caps.sensors ++ caps.notifications) fuel with
  | .error e => .error e
  | .ok (names, ls1) =>
    let names1 := if batteryTruthy caps.batteryLevel then addMetricName names "battery"
      else names
    let cmd := { mkHassSensor caps.location caps.name with metricNames := names1 }
    match collectInitialData st.metrics ls1 st.ignored
        (dictUpdate caps.sensors caps.notifications) fuel with
    | .error e => .error e
    | .ok (ms1, ls2) =>
      let ms2 := if batteryTruthy caps.batteryLevel then
          set_direct ms1 "battery" (.pyInt (caps.batteryLevel.getD 0))
        else ms1
      .ok { st with
            labels := ls2, metrics := ms2,
            cmds := (CmdKey.metricsKey, cmd) :: st.cmds }

/-- `ZwNode.register`: switches, then sensors, then RGBW; dimmers are only
registered when no RGB bulb was found. -/
def register (caps : ZwNodeCaps) (ignored : List String) (fuel : Nat) :
    Except PyErr NodeRegState :=
  match _register_switches caps (initReg ignored) caps.switches fuel with
  | .error e => .error e
  | .ok st1 =>
    match _register_sensors caps st1 fuel with
    | .error e => .error e
    | .ok st2 =>
      match _register_rgbw caps st2 caps.rgbbulbs fuel with
      | .error e => .error e
      | .ok st3 =>
        if caps.rgbbulbs.isEmpty then _register_dimmers caps st3 caps.dimmers fuel
        else .ok st3

/-- Capability set used in the C9 counterexample: a device exposing one RGB
bulb (value id 1) and one separate dimmer value-point (value id 2). -/
def c9Caps : ZwNodeCaps := ⟨"loc", "lamp", [], [⟨2, "level"⟩], [⟨1, "rgb"⟩], [], [], none⟩

/-- Capability set used in the C9 witness: one switch (id 5) and one dimmer
(id 6), no RGB bulb. -/
def c9wCaps : ZwNodeCaps := ⟨"l", "n", [⟨5, "sw"⟩], [⟨6, "dim"⟩], [], [], [], none⟩

/-- Registration result for `c9wCaps` (used to instantiate the C9 theorem). -/
def c9wState : NodeRegState := ((register c9wCaps [] 9).toOption).getD (initReg [])

/-! ## String and decimal-representation facts

`Labels` keys its two dictionaries by string concatenations
(`str(cc) + str(value_id)` and `str(cc) + label`), so we need that `++` on
`String` is left-cancellative and that `Nat.repr` is injective. -/

theorem string_data_append (s t : String) : (s ++ t).data = s.data ++ t.data := by
  cases s; cases t; rfl

theorem string_data_inj {s t : String} (h : s.data = t.data) : s = t := by
  cases s; cases t; exact congrArg String.mk h

theorem string_append_left_cancel {s t u : String} (h : s ++ t = s ++ u) : t = u := by
  have hd : s.data ++ t.data = s.data ++ u.data := by
    rw [← string_data_append, ← string_data_append, h]
  exact string_data_inj (List.append_cancel_left hd)

theorem decDigits_of_lt {n : Nat} (h : n < 10) : decDigits n = [Nat.digitChar n] := by
  rw [decDigits]; simp [h]

theorem decDigits_of_ge {n : Nat} (h : ¬ n < 10) :
    decDigits n = decDigits (n / 10) ++ [Nat.digitChar (n % 10)] := by
  rw [decDigits]; simp [h]

theorem toDigitsCore_eq_decDigits :
    ∀ (fuel n : Nat) (ds : List Char), n < fuel →
      Nat.toDigitsCore 10 fuel n ds = decDigits n ++ ds := by
  intro fuel
  induction fuel with
  | zero => intro n ds h; omega
  | succ fuel ih =>
    intro n ds h
    by_cases h10 : n < 10
    · have hdiv : n / 10 = 0 := by omega
      rw [decDigits_of_lt h10]
      simp [Nat.toDigitsCore, hdiv, Nat.mod_eq_of_lt h10]
    · have hdiv : ¬ n / 10 = 0 := by omega
      have hlt : n / 10 < fuel := by
        have : n / 10 < n := Nat.div_lt_self (by omega) (by omega)
        omega
      rw [decDigits_of_ge h10]
      simp only [Nat.toDigitsCore, if_neg hdiv]
      rw [ih (n / 10) _ hlt]
      simp

theorem natRepr_eq_decDigits (n : Nat) : Nat.repr n = (decDigits n).asString := by
  have := toDigitsCore_eq_decDigits (n + 1) n [] (by omega)
  simp only [Nat.repr, Nat.toDigits]
  rw [this]
  simp

theorem digitChar_toNat {n : Nat} (h : n < 10) : (Nat.digitChar n).toNat - 48 = n := by
  interval_cases n <;> rfl

theorem foldl_decDigits (n : Nat) :
    ∀ a : Nat, (decDigits n).foldl (fun a c => 10 * a + (c.toNat - 48)) a =
      a * 10 ^ (decDigits n).length + n := by
  induction n using Nat.strong_induction_on with
  | _ n ih =>
    intro a
    by_cases h10 : n < 10
    · rw [decDigits_of_lt h10]
      simp [digitChar_toNat h10]
      ring
    · rw [decDigits_of_ge h10]
      have hlt : n / 10 < n := Nat.div_lt_self (by omega) (by omega)
      rw [List.foldl_append, ih (n / 10) hlt a]
      have hmod : (Nat.digitChar (n % 10)).toNat - 48 = n % 10 :=
        digitChar_toNat (Nat.mod_lt _ (by omega))
      simp only [List.foldl_cons, List.foldl_nil, List.length_append, List.length_cons,
        List.length_nil, hmod]
      have : 10 * (a * 10 ^ (decDigits (n / 10)).length + n / 10) + n % 10 =
          a * (10 ^ (decDigits (n / 10)).length * 10) + (10 * (n / 10) + n % 10) := by ring
      rw [this, Nat.div_add_mod]
      rw [pow_succ]

theorem decVal_decDigits (n : Nat) : decVal (decDigits n) = n := by
  have := foldl_decDigits n 0
  simpa [decVal] using this

theorem natRepr_inj {m n : Nat} (h : Nat.repr m = Nat.repr n) : m = n := by
  rw [natRepr_eq_decDigits, natRepr_eq_decDigits] at h
  have hd : decDigits m = decDigits n := by
    have := congrArg String.data h
    simpa [List.asString] using this
  have := congrArg decVal hd
  rwa [decVal_decDigits, decVal_decDigits] at this

/-! ## Generic association-list lookup lemmas (Python `dict.get`) -/

theorem lookup_cons_self {α β : Type} [BEq α] [LawfulBEq α] (k : α) (v : β)
    (m : List (α × β)) : List.lookup k ((k, v) :: m) = some v := by
  simp [List.lookup]

theorem lookup_cons_ne {α β : Type} [BEq α] [LawfulBEq α] {k k' : α} (v : β)
    (m : List (α × β)) (h : k ≠ k') : List.lookup k ((k', v) :: m) = List.lookup k m := by
  simp [List.lookup, beq_eq_false_iff_ne.mpr h]

theorem lookup_cons_isSome {α β : Type} [BEq α] [LawfulBEq α] {k : α} {m : List (α × β)}
    (h : (List.lookup k m).isSome = true) (k' : α) (v : β) :
    (List.lookup k ((k', v) :: m)).isSome = true := by
  by_cases hk : k = k'
  · subst hk; rw [lookup_cons_self]; rfl
  · rwa [lookup_cons_ne _ _ hk]

/-! ## Labels invariants

The taken-set discipline of `get_true_label` makes labels unique per command
class (claim C6, amended): starting from a fresh `Labels` instance and calls
that all use one command class, distinct value ids that both successfully
return get distinct labels.  Across两 different command classes this fails. -/

theorem freshLabel_not_taken :
    ∀ (fuel : Nat) (ccs : String) (taken : List String) (lbl l : String),
      freshLabel ccs taken fuel lbl = .ok l → (ccs ++ l) ∉ taken := by
  intro fuel
  induction fuel with
  | zero => intro ccs taken lbl l h; simp [freshLabel] at h
  | succ fuel ih =>
    intro ccs taken lbl l h
    rw [freshLabel] at h
    by_cases hm : (ccs ++ lbl) ∈ taken
    · rw [if_pos hm] at h
      cases hb : bumpLabel lbl with
      | ok next => rw [hb] at h; exact ih ccs taken next l h
      | error e => rw [hb] at h; cases h
    · rw [if_neg hm] at h
      cases h
      exact hm

theorem labelKey_inj {c v1 v2 : Nat} (h : labelKey c v1 = labelKey c v2) : v1 = v2 :=
  natRepr_inj (string_append_left_cancel h)

theorem LInv_empty (c : Nat) : LInv c ⟨[], []⟩ := by
  constructor
  · intro k l h; simp [List.lookup] at h
  · intro k1 k2 l1 l2 h1; simp [List.lookup] at h1

theorem assign_facts {c vid fuel : Nat} {lbl : String} {st st' : LabelsState} {l : String}
    (hinv : LInv c st)
    (hmap : st.labelMap.lookup (labelKey c vid) = none ∨
      st.labelMap.lookup (labelKey c vid) = some "")
    (h : assignLabel st c (labelKey c vid) lbl fuel = .ok (l, st')) :
    st'.labelMap.lookup (labelKey c vid) = some l ∧
    (Nat.repr c ++ l) ∈ st'.taken ∧
    (∀ x, x ∈ st.taken → x ∈ st'.taken) ∧
    (∀ k x, st.labelMap.lookup k = some x → x ≠ "" → st'.labelMap.lookup k = some x) ∧
    LInv c st' := by
  unfold assignLabel at h
  cases hf : freshLabel (Nat.repr c) st.taken fuel lbl with
  | error e => rw [hf] at h; cases h
  | ok fl =>
    rw [hf] at h
    simp only [Except.ok.injEq, Prod.mk.injEq] at h
    obtain ⟨rfl, rfl⟩ := h
    have hnot : (Nat.repr c ++ fl) ∉ st.taken := freshLabel_not_taken _ _ _ _ _ hf
    refine ⟨lookup_cons_self _ _ _, List.mem_cons_self _ _,
      fun x hx => List.mem_cons_of_mem _ hx, ?_, ?_, ?_⟩
    · intro k x hk hxne
      have hkne : k ≠ labelKey c vid := by
        intro he
        cases hmap with
        | inl hm => rw [he, hm] at hk; cases hk
        | inr hm => rw [he, hm] at hk; cases hk; exact hxne rfl
      rw [lookup_cons_ne _ _ hkne]
      exact hk
    · intro k l2 hk
      by_cases hkk : k = labelKey c vid
      · subst hkk
        rw [lookup_cons_self] at hk
        cases hk
        exact List.mem_cons_self _ _
      · rw [lookup_cons_ne _ _ hkk] at hk
        exact List.mem_cons_of_mem _ (hinv.1 _ _ hk)
    · intro k1 k2 l1 l2 h1 h2 hk12 hl1 hl2
      by_cases hk1 : k1 = labelKey c vid
      · subst hk1
        rw [lookup_cons_self] at h1
        cases h1
        have hk2 : k2 ≠ labelKey c vid := fun he => hk12 (he ▸ rfl)
        rw [lookup_cons_ne _ _ hk2] at h2
        intro heq
        exact hnot (heq ▸ hinv.1 _ _ h2)
      · rw [lookup_cons_ne _ _ hk1] at h1
        by_cases hk2 : k2 = labelKey c vid
        · subst hk2
          rw [lookup_cons_self] at h2
          cases h2
          intro heq
          exact hnot (heq ▸ hinv.1 _ _ h1)
        · rw [lookup_cons_ne _ _ hk2] at h2
          exact hinv.2 _ _ _ _ h1 h2 hk12 hl1 hl2

theorem get_ok_facts {c vid fuel : Nat} {raw : String} {st st' : LabelsState} {l : String}
    (hinv : LInv c st) (h : get_true_label st c vid raw fuel = .ok (l, st')) :
    st'.labelMap.lookup (labelKey c vid) = some l ∧
    (Nat.repr c ++ l) ∈ st'.taken ∧
    (∀ x, x ∈ st.taken → x ∈ st'.taken) ∧
    (∀ k x, st.labelMap.lookup k = some x → x ≠ "" → st'.labelMap.lookup k = some x) ∧
    LInv c st' := by
  simp only [get_true_label] at h
  cases hl : st.labelMap.lookup (labelKey c vid) with
  | some name =>
    rw [hl] at h
    dsimp only at h
    by_cases hne : name = ""
    · rw [if_pos hne] at h
      exact assign_facts hinv (Or.inr (hne ▸ hl)) h
    · rw [if_neg hne] at h
      simp only [Except.ok.injEq, Prod.mk.injEq] at h
      obtain ⟨rfl, rfl⟩ := h
      exact ⟨hl, hinv.1 _ _ hl, fun x hx => hx, fun k x hk _ => hk, hinv⟩
  | none =>
    rw [hl] at h
    exact assign_facts hinv (Or.inl hl) h

theorem call_ne {c vid kv fuel : Nat} {raw li l : String} {st st' : LabelsState}
    (hinv : LInv c st) (hkv : st.labelMap.lookup (labelKey c kv) = some li) (hli : li ≠ "")
    (h : get_true_label st c vid raw fuel = .ok (l, st')) (hne : vid ≠ kv) :
    li ≠ l := by
  have hA : (Nat.repr c ++ li) ∈ st.taken := hinv.1 _ _ hkv
  simp only [get_true_label] at h
  cases hl : st.labelMap.lookup (labelKey c vid) with
  | some name =>
    rw [hl] at h
    dsimp only at h
    by_cases hne2 : name = ""
    · rw [if_pos hne2] at h
      unfold assignLabel at h
      cases hf : freshLabel (Nat.repr c) st.taken fuel (_format_label raw) with
      | error e => rw [hf] at h; cases h
      | ok fl =>
        rw [hf] at h
        simp only [Except.ok.injEq, Prod.mk.injEq] at h
        obtain ⟨rfl, rfl⟩ := h
        intro heq
        exact freshLabel_not_taken _ _ _ _ _ hf (heq ▸ hA)
    · rw [if_neg hne2] at h
      simp only [Except.ok.injEq, Prod.mk.injEq] at h
      obtain ⟨rfl, rfl⟩ := h
      have hkne : labelKey c kv ≠ labelKey c vid := fun he => hne (labelKey_inj he).symm
      exact hinv.2 _ _ _ _ hkv hl hkne hli hne2
  | none =>
    rw [hl] at h
    unfold assignLabel at h
    cases hf : freshLabel (Nat.repr c) st.taken fuel (_format_label raw) with
    | error e => rw [hf] at h; cases h
    | ok fl =>
      rw [hf] at h
      simp only [Except.ok.injEq, Prod.mk.injEq] at h
      obtain ⟨rfl, rfl⟩ := h
      intro heq
      exact freshLabel_not_taken _ _ _ _ _ hf (heq ▸ hA)

theorem call_ne_empty {c vid fuel : Nat} {raw l : String} {st st' : LabelsState}
    (hempty : (Nat.repr c ++ "") ∈ st.taken)
    (h : get_true_label st c vid raw fuel = .ok (l, st')) : l ≠ "" := by
  simp only [get_true_label] at h
  cases hl : st.labelMap.lookup (labelKey c vid) with
  | some name =>
    rw [hl] at h
    dsimp only at h
    by_cases hne2 : name = ""
    · rw [if_pos hne2] at h
      unfold assignLabel at h
      cases hf : freshLabel (Nat.repr c) st.taken fuel (_format_label raw) with
      | error e => rw [hf] at h; cases h
      | ok fl =>
        rw [hf] at h
        simp only [Except.ok.injEq, Prod.mk.injEq] at h
        obtain ⟨rfl, rfl⟩ := h
        intro heq
        exact freshLabel_not_taken _ _ _ _ _ hf (heq ▸ hempty)
    · rw [if_neg hne2] at h
      simp only [Except.ok.injEq, Prod.mk.injEq] at h
      obtain ⟨rfl, rfl⟩ := h
      exact hne2
  | none =>
    rw [hl] at h
    unfold assignLabel at h
    cases hf : freshLabel (Nat.repr c) st.taken fuel (_format_label raw) with
    | error e => rw [hf] at h; cases h
    | ok fl =>
      rw [hf] at h
      simp only [Except.ok.injEq, Prod.mk.injEq] at h
      obtain ⟨rfl, rfl⟩ := h
      intro heq
      exact freshLabel_not_taken _ _ _ _ _ hf (heq ▸ hempty)

theorem track_ne (c fuel : Nat) :
    ∀ (rs : List LabelReq) (st : LabelsState), LInv c st → (∀ r ∈ rs, r.cc = c) →
      ∀ (kv : Nat) (li : String), st.labelMap.lookup (labelKey c kv) = some li → li ≠ "" →
      ∀ (j : Nat) (rj : LabelReq) (lj : String), rs.get? j = some rj →
        (runLabels fuel st rs).1.get? j = some (some lj) → rj.vid ≠ kv → li ≠ lj := by
  intro rs
  induction rs with
  | nil =>
    intro st _ _ kv li _ _ j rj lj hj
    simp at hj
  | cons r rs ih =>
    intro st hinv hcc kv li hkv hli j rj lj hj hout hvne
    have hrc : r.cc = c := hcc r (List.mem_cons_self r rs)
    have hcc' : ∀ x ∈ rs, x.cc = c := fun x hx => hcc x (List.mem_cons_of_mem _ hx)
    cases hcall : get_true_label st r.cc r.vid r.raw fuel with
    | ok p =>
      obtain ⟨l, st'⟩ := p
      have hrun : (runLabels fuel st (r :: rs)).1 = some l :: (runLabels fuel st' rs).1 := by
        simp [runLabels, hcall]
      rw [hrc] at hcall
      cases j with
      | zero =>
        rw [hrun] at hout
        simp only [List.get?] at hout hj
        obtain rfl : rj = r := by simpa using hj.symm
        obtain rfl : l = lj := by simpa using hout
        exact call_ne hinv hkv hli hcall hvne
      | succ j' =>
        rw [hrun] at hout
        simp only [List.get?] at hout hj
        have hfacts := get_ok_facts hinv hcall
        exact ih st' hfacts.2.2.2.2 hcc' kv li (hfacts.2.2.2.1 _ _ hkv hli) hli j' rj lj hj
          hout hvne
    | error e =>
      have hrun : (runLabels fuel st (r :: rs)).1 = none :: (runLabels fuel st rs).1 := by
        simp [runLabels, hcall]
      cases j with
      | zero =>
        rw [hrun] at hout
        simp at hout
      | succ j' =>
        rw [hrun] at hout
        simp only [List.get?] at hout hj
        exact ih st hinv hcc' kv li hkv hli j' rj lj hj hout hvne

theorem track_empty (c fuel : Nat) :
    ∀ (rs : List LabelReq) (st : LabelsState), LInv c st → (∀ r ∈ rs, r.cc = c) →
      (Nat.repr c ++ "") ∈ st.taken →
      ∀ (j : Nat) (lj : String), (runLabels fuel st rs).1.get? j = some (some lj) →
        lj ≠ "" := by
  intro rs
  induction rs with
  | nil =>
    intro st _ _ _ j lj hout
    simp [runLabels] at hout
  | cons r rs ih =>
    intro st hinv hcc hempty j lj hout
    have hrc : r.cc = c := hcc r (List.mem_cons_self r rs)
    have hcc' : ∀ x ∈ rs, x.cc = c := fun x hx => hcc x (List.mem_cons_of_mem _ hx)
    cases hcall : get_true_label st r.cc r.vid r.raw fuel with
    | ok p =>
      obtain ⟨l, st'⟩ := p
      have hrun : (runLabels fuel st (r :: rs)).1 = some l :: (runLabels fuel st' rs).1 := by
        simp [runLabels, hcall]
      rw [hrc] at hcall
      cases j with
      | zero =>
        rw [hrun] at hout
        obtain rfl : l = lj := by simpa using hout
        exact call_ne_empty hempty hcall
      | succ j' =>
        rw [hrun] at hout
        simp only [List.get?] at hout
        have hfacts := get_ok_facts hinv hcall
        exact ih st' hfacts.2.2.2.2 hcc' (hfacts.2.2.1 _ hempty) j' lj hout
    | error e =>
      have hrun : (runLabels fuel st (r :: rs)).1 = none :: (runLabels fuel st rs).1 := by
        simp [runLabels, hcall]
      cases j with
      | zero =>
        rw [hrun] at hout
        simp at hout
      | succ j' =>
        rw [hrun] at hout
        simp only [List.get?] at hout
        exact ih st hinv hcc' hempty j' lj hout

theorem runLabels_pairwise (c fuel : Nat) :
    ∀ (reqs : List LabelReq) (st : LabelsState), LInv c st → (∀ r ∈ reqs, r.cc = c) →
      ∀ (i j : Nat) (ri rj : LabelReq) (li lj : String), i < j →
        reqs.get? i = some ri → reqs.get? j = some rj → ri.vid ≠ rj.vid →
        (runLabels fuel st reqs).1.get? i = some (some li) →
        (runLabels fuel st reqs).1.get? j = some (some lj) → li ≠ lj := by
  intro reqs
  induction reqs with
  | nil =>
    intro st _ _ i j ri rj li lj _ hi
    simp at hi
  | cons r rs ih =>
    intro st hinv hcc i j ri rj li lj hij hi hj hv houti houtj
    have hrc : r.cc = c := hcc r (List.mem_cons_self r rs)
    have hcc' : ∀ x ∈ rs, x.cc = c := fun x hx => hcc x (List.mem_cons_of_mem _ hx)
    cases hcall : get_true_label st r.cc r.vid r.raw fuel with
    | ok p =>
      obtain ⟨l, st'⟩ := p
      have hrun : (runLabels fuel st (r :: rs)).1 = some l :: (runLabels fuel st' rs).1 := by
        simp [runLabels, hcall]
      rw [hrc] at hcall
      have hfacts := get_ok_facts hinv hcall
      cases i with
      | zero =>
        cases j with
        | zero => omega
        | succ j' =>
          rw [hrun] at houti houtj
          simp only [List.get?] at houti houtj hi hj
          have hri : ri = r := by simpa using hi.symm
          have hl : l = li := by simpa using houti
          by_cases hle : l = ""
          · have hlj := track_empty c fuel rs st' hfacts.2.2.2.2 hcc'
              (by rw [← hle]; exact hfacts.2.1) j' lj houtj
            intro he
            exact hlj (by rw [← he, ← hl, hle])
          · have hv2 : rj.vid ≠ r.vid := by
              rw [← hri]
              exact Ne.symm hv
            rw [← hl]
            exact track_ne c fuel rs st' hfacts.2.2.2.2 hcc' r.vid l hfacts.1 hle j' rj lj
              hj houtj hv2
      | succ i' =>
        cases j with
        | zero => omega
        | succ j' =>
          rw [hrun] at houti houtj
          simp only [List.get?] at houti houtj hi hj
          exact ih st' hfacts.2.2.2.2 hcc' i' j' ri rj li lj (by omega) hi hj hv houti houtj
    | error e =>
      have hrun : (runLabels fuel st (r :: rs)).1 = none :: (runLabels fuel st rs).1 := by
        simp [runLabels, hcall]
      cases i with
      | zero =>
        rw [hrun] at houti
        simp at houti
      | succ i' =>
        cases j with
        | zero => omega
        | succ j' =>
          rw [hrun] at houti houtj
          simp only [List.get?] at houti houtj hi hj
          exact ih st hinv hcc' i' j' ri rj li lj (by omega) hi hj hv houti houtj

/-! ## Registration lemmas (claim C9) -/

theorem registerAct_isSome {st st' : NodeRegState} {caps : ZwNodeCaps} {cc : Nat}
    {dt hook : String} {mk : Nat → ZAction} {p : ActPoint} {fuel : Nat}
    (h : registerAct st caps cc dt mk hook p fuel = .ok st') :
    (st'.cmds.lookup (CmdKey.value p.vid)).isSome = true := by
  unfold registerAct at h
  by_cases hp : (st.cmds.lookup (CmdKey.value p.vid)).isSome = true
  · rw [if_pos hp] at h
    cases h
    exact hp
  · rw [if_neg hp] at h
    cases h1 : get_true_label st.labels cc p.vid p.raw fuel with
    | error e => rw [h1] at h; cases h
    | ok q1 =>
      obtain ⟨label, ls1⟩ := q1
      rw [h1] at h
      dsimp only at h
      cases h2 : get_true_label ls1 cc p.vid p.raw fuel with
      | error e => rw [h2] at h; cases h
      | ok q2 =>
        obtain ⟨l2, ls2⟩ := q2
        rw [h2] at h
        dsimp only at h
        cases h
        simp [lookup_cons_self]

theorem registerAct_mono {st st' : NodeRegState} {caps : ZwNodeCaps} {cc : Nat}
    {dt hook : String} {mk : Nat → ZAction} {p : ActPoint} {fuel : Nat}
    (h : registerAct st caps cc dt mk hook p fuel = .ok st') (k : CmdKey)
    (hk : (st.cmds.lookup k).isSome = true) : (st'.cmds.lookup k).isSome = true := by
  unfold registerAct at h
  by_cases hp : (st.cmds.lookup (CmdKey.value p.vid)).isSome = true
  · rw [if_pos hp] at h
    cases h
    exact hk
  · rw [if_neg hp] at h
    cases h1 : get_true_label st.labels cc p.vid p.raw fuel with
    | error e => rw [h1] at h; cases h
    | ok q1 =>
      obtain ⟨label, ls1⟩ := q1
      rw [h1] at h
      dsimp only at h
      cases h2 : get_true_label ls1 cc p.vid p.raw fuel with
      | error e => rw [h2] at h; cases h
      | ok q2 =>
        obtain ⟨l2, ls2⟩ := q2
        rw [h2] at h
        dsimp only at h
        cases h
        exact lookup_cons_isSome hk _ _

theorem registerAct_filters {st st' : NodeRegState} {caps : ZwNodeCaps} {cc : Nat}
    {dt hook : String} {mk : Nat → ZAction} {p : ActPoint} {fuel : Nat}
    (h : registerAct st caps cc dt mk hook p fuel = .ok st')
    (hinv : ∀ k cmd, st.cmds.lookup k = some cmd → cmd.lastStatusPayload = none) :
    ∀ k cmd, st'.cmds.lookup k = some cmd → cmd.lastStatusPayload = none := by
  unfold registerAct at h
  by_cases hp : (st.cmds.lookup (CmdKey.value p.vid)).isSome = true
  · rw [if_pos hp] at h
    cases h
    exact hinv
  · rw [if_neg hp] at h
    cases h1 : get_true_label st.labels cc p.vid p.raw fuel with
    | error e => rw [h1] at h; cases h
    | ok q1 =>
      obtain ⟨label, ls1⟩ := q1
      rw [h1] at h
      dsimp only at h
      cases h2 : get_true_label ls1 cc p.vid p.raw fuel with
      | error e => rw [h2] at h; cases h
      | ok q2 =>
        obtain ⟨l2, ls2⟩ := q2
        rw [h2] at h
        dsimp only at h
        cases h
        intro k cmd hkc
        by_cases hkk : k = CmdKey.value p.vid
        · subst hkk
          rw [lookup_cons_self] at hkc
          cases hkc
          rfl
        · rw [lookup_cons_ne _ _ hkk] at hkc
          exact hinv _ _ hkc

theorem registerLoop_mono {caps : ZwNodeCaps} {cc : Nat} {dt hook : String}
    {mk : Nat → ZAction} :
    ∀ (l : List ActPoint) (st st' : NodeRegState) (fuel : Nat),
      registerLoop caps cc dt mk hook st l fuel = .ok st' →
      ∀ k, (st.cmds.lookup k).isSome = true → (st'.cmds.lookup k).isSome = true := by
  intro l
  induction l with
  | nil =>
    intro st st' fuel h k hk
    cases h
    exact hk
  | cons p rest ih =>
    intro st st' fuel h k hk
    rw [registerLoop] at h
    cases ha : registerAct st caps cc dt mk hook p fuel with
    | error e => rw [ha] at h; cases h
    | ok stm =>
      rw [ha] at h
      exact ih stm st' fuel h k (registerAct_mono ha k hk)

theorem registerLoop_complete {caps : ZwNodeCaps} {cc : Nat} {dt hook : String}
    {mk : Nat → ZAction} :
    ∀ (l : List ActPoint) (st st' : NodeRegState) (fuel : Nat),
      registerLoop caps cc dt mk hook st l fuel = .ok st' →
      ∀ p ∈ l, (st'.cmds.lookup (CmdKey.value p.vid)).isSome = true := by
  intro l
  induction l with
  | nil =>
    intro st st' fuel h p hp
    simp at hp
  | cons q rest ih =>
    intro st st' fuel h p hp
    rw [registerLoop] at h
    cases ha : registerAct st caps cc dt mk hook q fuel with
    | error e => rw [ha] at h; cases h
    | ok stm =>
      rw [ha] at h
      cases List.mem_cons.1 hp with
      | inl hpq =>
        subst hpq
        exact registerLoop_mono rest stm st' fuel h _ (registerAct_isSome ha)
      | inr hpr => exact ih stm st' fuel h p hpr

theorem registerLoop_filters {caps : ZwNodeCaps} {cc : Nat} {dt hook : String}
    {mk : Nat → ZAction} :
    ∀ (l : List ActPoint) (st st' : NodeRegState) (fuel : Nat),
      registerLoop caps cc dt mk hook st l fuel = .ok st' →
      (∀ k cmd, st.cmds.lookup k = some cmd → cmd.lastStatusPayload = none) →
      ∀ k cmd, st'.cmds.lookup k = some cmd → cmd.lastStatusPayload = none := by
  intro l
  induction l with
  | nil =>
    intro st st' fuel h hinv
    cases h
    exact hinv
  | cons q rest ih =>
    intro st st' fuel h hinv
    rw [registerLoop] at h
    cases ha : registerAct st caps cc dt mk hook q fuel with
    | error e => rw [ha] at h; cases h
    | ok stm =>
      rw [ha] at h
      exact ih stm st' fuel h (registerAct_filters ha hinv)

theorem register_sensors_cmds {caps : ZwNodeCaps} {st st' : NodeRegState} {fuel : Nat}
    (h : _register_sensors caps st fuel = .ok st') :
    ∃ cmd, st'.cmds = (CmdKey.metricsKey, cmd) :: st.cmds ∧
      cmd.lastStatusPayload = none := by
  unfold _register_sensors at h
  cases h1 : collectMetricNames st.labels [] (caps.sensors ++ caps.notifications) fuel with
  | error e => rw [h1] at h; cases h
  | ok q1 =>
    obtain ⟨names, ls1⟩ := q1
    rw [h1] at h
    dsimp only at h
    cases h2 : collectInitialData st.metrics ls1 st.ignored
        (dictUpdate caps.sensors caps.notifications) fuel with
    | error e => rw [h2] at h; cases h
    | ok q2 =>
      obtain ⟨ms1, ls2⟩ := q2
      rw [h2] at h
      cases h
      exact ⟨_, rfl, rfl⟩

/-! ## Claim theorems -/

set_option maxRecDepth 40000 in
/-- C1: the spec claims the spam governor returns `true` (suppress) on the
call where the budget reaches exactly 0 and throughout the negative cooldown,
so a burst of 600 same-second calls from a fresh budget of 600 must be
suppressed at least once.  The code instead executes `count = -60` and then
`return count == 0`, which is `False`: a 600-call burst from the fresh state
`(0, 600)` produces no `true` at all, ends in the cooldown state `(0, -60)`,
and the triggering call itself (budget 1 → 0 → -60) returns `false` even
though it logs "Setting 60s timeout". -/
theorem c1_spam_burst_never_suppressed :
    (spamBurst 0 (0, 600) 600).1.any id = false ∧
    (spamBurst 0 (0, 600) 600).2 = (0, -60) ∧
    is_spamming 0 (0, 1) = ((0, -60), false) := by
  refine ⟨by decide, by decide, by decide⟩

/-- C2 counterexample: `Bridge.value_update` contains no `try/except`, so an
exception raised by the per-event dispatch escapes the boundary.  Concretely:
a registered, non-spamming dimmer event on this snapshot raises
`AttributeError` (bridge calls `n.send_dimmer_data()`, a method `ZwNode` does
not define) and `value_update` returns it to its caller. -/
theorem c2_value_update_escapes :
    (value_update 0 ⟨true, .ok ()⟩ missingMethodHandlers
      ⟨"n1", "User", "Level", COMMAND_CLASS_DIMMER⟩
      ⟨false, 0, 0, 1, [], [("n1", ⟨(0, 700), [], []⟩)]⟩).2.2 =
      some PyErr.attributeError := by decide

/-- C2 (amended): only the inbound command path is isolated: `_on_message`
wraps lookup and action invocation in `try/except`, so it never lets an
exception escape, for every action table, topic, payload and healing flag;
exceptions in `value_update` propagate (see the counterexample). -/
theorem c2_on_message_isolated (healing : Bool)
    (actions : List (String × (String → Except PyErr Unit))) (topic data : String) :
    ∃ b, _on_message healing actions topic data = .ok b := by
  unfold _on_message
  cases healing with
  | true => exact ⟨false, rfl⟩
  | false =>
    cases hl : actions.lookup topic with
    | none => exact ⟨false, by simp [hl]⟩
    | some act =>
      cases ha : act data with
      | ok u => exact ⟨true, by simp [hl, ha]⟩
      | error e => exact ⟨true, by simp [hl, ha]⟩

/-- C3: when the healing flag is set at the gate (after the opportunistic
`check_for_repair` call), `value_update` returns immediately: no publish, no
node-state mutation (`check_for_repair` itself never touches the node
registry), and `_on_message` under `healing = true` invokes no action. -/
theorem c3_healing_gates (now : Int) (env : HealEnv) (h : Handlers) (ev : ValueEvent)
    (s : BridgeState) (actions : List (String × (String → Except PyErr Unit)))
    (topic data : String)
    (hh : (check_for_repair now env s).1.healing = true) :
    value_update now env h ev s =
      ((check_for_repair now env s).1, [], (check_for_repair now env s).2) ∧
    (check_for_repair now env s).1.nodes = s.nodes ∧
    _on_message true actions topic data = .ok false := by
  refine ⟨?_, ?_, rfl⟩
  · unfold value_update
    cases hc : (check_for_repair now env s).2 with
    | some e => simp [hc]
    | none => simp [hc, hh]
  · unfold check_for_repair
    by_cases h1 : now - s.lastRepairAttempt > 5 * 60
    · rw [if_pos h1]
      by_cases h2 : env.ready
      · simp only [h2, if_true]
        by_cases h3 : now / (24 * 60 * 60) ≠ (s.repairTime : Int)
        · rw [if_pos h3]
          cases env.heal <;> rfl
        · rw [if_neg h3]
      · simp only [h2]
        rfl
    · rw [if_neg h1]

/-- C4 counterexample: the live dimmer publish path scales with
`int(data * 255 / 95)`, not `round(value * 255 / 99)`: for `data = 49` it
publishes brightness 131, while the spec formula gives 126. -/
theorem c4_scale_counterexample :
    _send_dimmer_one none 49 = (some 131, [131]) ∧
    spec_round_brightness 49 = 126 ∧ (131 : Nat) ≠ 126 := by
  refine ⟨by decide, ?_, by decide⟩
  unfold spec_round_brightness
  rw [round_eq]
  rw [show ((((49 : Nat) * 255 : Rat)) / 99 + 1 / 2) = (25089 / 198 : Rat) by norm_num]
  rw [Int.floor_eq_iff]
  norm_num

/-- C4 (amended): whenever the change filter passes, the brightness published
by `ZwNode._send_dimmer_data` is `int(level * 255 / 95)` (truncating, 95
denominator) — for `data = 49` that is 131; the legacy `devices.py` dimmer
formula is `int(value * 255 / 99)`, which happens to give the spec's 126 at 49
but truncates rather than rounds. -/
theorem c4_dimmer_scale (last : Option Nat) (level : Nat)
    (hch : last ≠ some (_scale_to_hass level)) :
    _send_dimmer_one last level =
      (some (_scale_to_hass level), [_scale_to_hass level]) ∧
    _scale_to_hass 49 = 131 ∧ _hass_brightness 49 = 126 := by
  have hne : ¬ (some (_scale_to_hass level) = last) := fun he => hch he.symm
  exact ⟨by simp [_send_dimmer_one, should_status_send, hne], by decide, by decide⟩

/-- Witness for C4: a filter state that differs from the scaled value lets the
publish happen, with brightness `_scale_to_hass 49 = 131`. -/
theorem c4_witness :
    _send_dimmer_one (some 0) 49 = (some (_scale_to_hass 49), [_scale_to_hass 49]) :=
  (c4_dimmer_scale (some 0) 49 (by decide)).1

/-- C5 counterexample: `check_for_repair` wraps the heal in `try/finally` with
no `except` clause, so a heal failure is NOT caught at the heal boundary: the
exception escapes to the caller. -/
theorem c5_exception_escapes :
    (check_for_repair 301 ⟨true, .error .healError⟩ ⟨false, 0, -1, 0, [], []⟩).2 =
      some PyErr.healError := by decide

/-- C5 (amended): if the heal raises (throttle open, network ready, new day),
the exception propagates out of `check_for_repair` — it is not caught or
logged there — but the `finally` clause still clears the healing flag and
advances the last-healed day index to today, so no heal is retried until the
next calendar day. -/
theorem c5_heal_failure (now : Int) (env : HealEnv) (s : BridgeState) (e : PyErr)
    (hthr : now - s.lastRepairAttempt > 5 * 60) (hready : env.ready = true)
    (hday : now / (24 * 60 * 60) ≠ s.repairTime) (hheal : env.heal = .error e) :
    check_for_repair now env s =
      ({ s with
           lastRepairAttempt := now, healing := false,
           repairTime := now / (24 * 60 * 60) }, some e) := by
  unfold check_for_repair
  rw [if_pos hthr]
  simp only [hready, if_true]
  rw [if_pos (show now / (24 * 60 * 60) ≠
    ({ s with lastRepairAttempt := now } : BridgeState).repairTime from hday)]
  rw [hheal]

/-- Witness for C5: a failing heal at time 301 (day 0, last-healed day -1)
escapes with `healError` while the state records the attempt, clears the flag
and advances the day index. -/
theorem c5_witness :
    check_for_repair 301 ⟨true, .error .healError⟩ ⟨false, 0, -1, 0, [], []⟩ =
      ({ (⟨false, 0, -1, 0, [], []⟩ : BridgeState) with
           lastRepairAttempt := 301,
           healing := false, repairTime := 301 / (24 * 60 * 60) }, some PyErr.healError) :=
  c5_heal_failure 301 ⟨true, .error .healError⟩ ⟨false, 0, -1, 0, [], []⟩ PyErr.healError
    (by decide) rfl (by decide) rfl

/-- C6 counterexample, two failure modes.  First, across command classes: the
distinct pairs `(1, 1)` and `(2, 2)`, sharing the raw label `"x"`, both
successfully return the SAME label `"x"`, because the taken-set is keyed per
command class.  Second, even two distinct pairs of the SAME command class can
receive the same label when the sequence mixes command classes: the map key
`str(commandClass) + str(valueId)` aliases `(1, 23)` and `(12, 3)` (both
`"123"`), so after `(1, 23, "x")` the call `(12, 3, "y")` returns the stored
`"x"` without reserving `"12x"` in the taken-set, and `(12, 5, "x")` then also
returns `"x"` — the class-12 pairs `(12, 3)` and `(12, 5)` end up with one
label. -/
theorem c6_label_aliasing :
    ((runLabels 20 ⟨[], []⟩ [⟨1, 1, "x"⟩, ⟨2, 2, "x"⟩]).1 = [some "x", some "x"] ∧
      ((1, 1) : Nat × Nat) ≠ (2, 2)) ∧
    ((runLabels 20 ⟨[], []⟩ [⟨1, 23, "x"⟩, ⟨12, 3, "y"⟩, ⟨12, 5, "x"⟩]).1 =
        [some "x", some "x", some "x"] ∧
      ((12, 3) : Nat × Nat) ≠ (12, 5)) := by
  exact ⟨⟨by decide, by decide⟩, ⟨by decide, by decide⟩⟩

/-- C6 (amended): the allocator is injective only for call sequences confined
to one command class: for any call sequence on a fresh `Labels` instance in
which EVERY request carries the same command class `c`, two calls at distinct
positions with distinct value ids that both successfully return receive
distinct labels.  The single-class restriction on the whole sequence is
necessary, not just convenient: in mixed sequences even two same-class pairs
can alias through the concatenated map key (see the counterexample). -/
theorem c6_same_class_distinct (c fuel : Nat) (reqs : List LabelReq)
    (hcc : ∀ r ∈ reqs, r.cc = c) (i j : Nat) (ri rj : LabelReq) (li lj : String)
    (hij : i ≠ j) (hi : reqs.get? i = some ri) (hj : reqs.get? j = some rj)
    (hv : ri.vid ≠ rj.vid)
    (houti : (runLabels fuel ⟨[], []⟩ reqs).1.get? i = some (some li))
    (houtj : (runLabels fuel ⟨[], []⟩ reqs).1.get? j = some (some lj)) :
    li ≠ lj := by
  rcases Nat.lt_or_ge i j with hlt | hge
  · exact runLabels_pairwise c fuel reqs _ (LInv_empty c) hcc i j ri rj li lj hlt hi hj hv
      houti houtj
  · have hlt : j < i := by omega
    exact (runLabels_pairwise c fuel reqs _ (LInv_empty c) hcc j i rj ri lj li hlt hj hi
      (Ne.symm hv) houtj houti).symm

/-- Witness for C6 (amended): two same-class requests with value ids 1 and 2
and shared raw label `"abc"` return `"abc"` and `"abc_2"`, which are distinct. -/
theorem c6_witness : ("abc" : String) ≠ "abc_2" :=
  c6_same_class_distinct 1 20 [⟨1, 1, "abc"⟩, ⟨1, 2, "abc"⟩] (by decide) 0 1
    ⟨1, 1, "abc"⟩ ⟨1, 2, "abc"⟩ "abc" "abc_2" (by decide) (by decide) (by decide)
    (by decide) (by decide) (by decide)

/-- C7: the spec requires short labels to fall back to plain `_2` appension
("any implementation must bound-check before indexing trailing characters").
The code indexes `label[-2]` without a bound check: once `"1a"` is taken, a
second value with raw label `"a"` raises `IndexError` inside the suffix loop
instead of returning `"a_2"` — the full two-call run yields
`[some "a", none]` and the failing call's result is `IndexError`. -/
theorem c7_short_label_raises :
    (runLabels 20 ⟨[], []⟩ [⟨1, 1, "a"⟩, ⟨1, 2, "a"⟩]).1 = [some "a", none] ∧
    get_true_label ⟨[(labelKey 1 1, "a")], [Nat.repr 1 ++ "a"]⟩ 1 2 "a" 20 =
      .error PyErr.indexError := by
  exact ⟨by decide, by rfl⟩

theorem lookup_setAssoc (m : List (String × PyVal)) (k : String) (v : PyVal) :
    (setAssoc m k v).lookup k = some v := by
  induction m with
  | nil => simp [setAssoc, List.lookup]
  | cons p rest ih =>
    obtain ⟨pk, pv⟩ := p
    by_cases hp : pk = k
    · subst hp
      simp [setAssoc, lookup_cons_self]
    · rw [setAssoc, if_neg hp]
      rw [lookup_cons_ne _ _ (fun he => hp he.symm)]
      exact ih

/-- C8 counterexample: `Metrics._get_true_value` normalizes only floats; a
boolean reading is stored as the raw boolean, not as `"on"`/`"off"`.  Feeding
`True` for a fresh label `"Switch"` stores `pyBool true`, which is not the
string `"on"`. -/
theorem c8_bool_not_normalized :
    set_from_value ⟨[], false, 0⟩ ⟨[], []⟩ [] 48 7 "Switch" (.pyBool true) 9 =
      .ok (⟨[("switch", .pyBool true)], true, 0⟩,
        ⟨[(labelKey 48 7, "switch")], [Nat.repr 48 ++ "switch"]⟩) ∧
    PyVal.pyBool true ≠ PyVal.pyStr "on" := by
  exact ⟨by rfl, by decide⟩

/-- C8 (amended): before comparison and storage a float is normalized to its
two-decimal string formatting, while booleans (and every other type) pass
through unchanged — there is no `"on"`/`"off"` conversion; the stored value is
the normalized one and the dirty flag is set exactly when the normalized new
value differs from what was stored under the label. -/
theorem c8_normalization (ms : MetricsState) (ls ls' : LabelsState) (ignored : List String)
    (cc vid fuel : Nat) (raw label : String) (v : PyVal)
    (hlab : get_true_label ls cc vid raw fuel = .ok (label, ls'))
    (hni : label ∉ ignored) :
    ∃ ms', set_from_value ms ls ignored cc vid raw v fuel = .ok (ms', ls') ∧
      ms'.data.lookup label = some (_get_true_value v) ∧
      ms'.dirty = (ms.dirty || decide (ms.data.lookup label ≠ some (_get_true_value v))) ∧
      (∀ q : Rat, _get_true_value (.pyFloat q) = .pyStr (formatTwoDec q)) ∧
      (∀ b : Bool, _get_true_value (.pyBool b) = .pyBool b) := by
  unfold set_from_value
  rw [hlab]
  dsimp only
  rw [if_neg hni]
  cases hold : ms.data.lookup label with
  | some old =>
    by_cases he : old = _get_true_value v
    · refine ⟨ms, ?_, ?_, ?_, fun q => rfl, fun b => rfl⟩
      · dsimp only
        rw [if_neg (not_not_intro he)]
      · rw [hold, he]
      · simp [he]
    · refine ⟨{ ms with data := setAssoc ms.data label (_get_true_value v), dirty := true },
        ?_, ?_, ?_, fun q => rfl, fun b => rfl⟩
      · dsimp only
        rw [if_pos he]
      · exact lookup_setAssoc _ _ _
      · simp [he]
  | none =>
    refine ⟨{ ms with data := setAssoc ms.data label (_get_true_value v), dirty := true },
      ?_, ?_, ?_, fun q => rfl, fun b => rfl⟩
    · rfl
    · exact lookup_setAssoc _ _ _
    · simp

/-- Witness for C8 (amended): feeding the float 22.5 under raw label `"temp"`
into a fresh aggregator stores the normalized string and sets the dirty flag. -/
theorem c8_witness :
    ∃ ms', set_from_value ⟨[], false, 0⟩ ⟨[], []⟩ [] 1 1 "temp"
        (.pyFloat (45 / 2)) 9 =
        .ok (ms', ⟨[(labelKey 1 1, "temp")], [Nat.repr 1 ++ "temp"]⟩) ∧
      ms'.data.lookup "temp" = some (_get_true_value (.pyFloat (45 / 2))) ∧
      ms'.dirty = ((⟨[], false, 0⟩ : MetricsState).dirty ||
        decide ((⟨[], false, 0⟩ : MetricsState).data.lookup "temp" ≠
          some (_get_true_value (.pyFloat (45 / 2))))) ∧
      (∀ q : Rat, _get_true_value (.pyFloat q) = .pyStr (formatTwoDec q)) ∧
      (∀ b : Bool, _get_true_value (.pyBool b) = .pyBool b) :=
  c8_normalization ⟨[], false, 0⟩ ⟨[], []⟩
    ⟨[(labelKey 1 1, "temp")], [Nat.repr 1 ++ "temp"]⟩ [] 1 1 9 "temp" "temp"
    (.pyFloat (45 / 2)) (by rfl) (by decide)

/-- C9 counterexample: `ZwNode.register` runs `_register_dimmers` only when
`_register_rgbw` found nothing (`if not self._register_rgbw(): ...`).  For a
device with an RGB bulb and a dimmer value-point, registration succeeds, binds
the RGB point (id 1), and leaves the dimmer point (id 2) without any binding —
contradicting "for every dimmer ... regardless of which other capability
categories the device also exposes". -/
theorem c9_dimmer_skipped_when_rgb :
    (register c9Caps [] 9).toOption.map
      (fun st => ((st.cmds.lookup (CmdKey.value 1)).isSome,
        (st.cmds.lookup (CmdKey.value 2)).isSome)) = some (true, false) := by rfl

/-- C9 (amended): when `register` succeeds it creates a command binding (each
carrying its own fresh change filter, `_last_status_payload = None`) for every
switch value-point and every RGB value-point; dimmer value-points are bound
only when the device exposes no RGB bulb. -/
theorem c9_registration (caps : ZwNodeCaps) (ignored : List String) (fuel : Nat)
    (st : NodeRegState) (hok : register caps ignored fuel = .ok st) :
    (∀ p ∈ caps.switches, (st.cmds.lookup (CmdKey.value p.vid)).isSome = true) ∧
    (∀ p ∈ caps.rgbbulbs, (st.cmds.lookup (CmdKey.value p.vid)).isSome = true) ∧
    (caps.rgbbulbs = [] →
      ∀ p ∈ caps.dimmers, (st.cmds.lookup (CmdKey.value p.vid)).isSome = true) ∧
    (∀ k cmd, st.cmds.lookup k = some cmd → cmd.lastStatusPayload = none) := by
  unfold register at hok
  cases h1 : _register_switches caps (initReg ignored) caps.switches fuel with
  | error e => rw [h1] at hok; cases hok
  | ok st1 =>
    rw [h1] at hok
    dsimp only at hok
    cases h2 : _register_sensors caps st1 fuel with
    | error e => rw [h2] at hok; cases hok
    | ok st2 =>
      rw [h2] at hok
      dsimp only at hok
      cases h3 : _register_rgbw caps st2 caps.rgbbulbs fuel with
      | error e => rw [h3] at hok; cases hok
      | ok st3 =>
        rw [h3] at hok
        dsimp only at hok
        obtain ⟨scmd, hs2cmds, hscmd⟩ := register_sensors_cmds h2
        have hmono2 : ∀ k, (st1.cmds.lookup k).isSome = true →
            (st2.cmds.lookup k).isSome = true := by
          intro k hk
          rw [hs2cmds]
          exact lookup_cons_isSome hk _ _
        have hfil2 : (∀ k cmd, st1.cmds.lookup k = some cmd →
            cmd.lastStatusPayload = none) →
            ∀ k cmd, st2.cmds.lookup k = some cmd → cmd.lastStatusPayload = none := by
          intro hfil k cmd hk
          rw [hs2cmds] at hk
          by_cases hkk : k = CmdKey.metricsKey
          · subst hkk
            rw [lookup_cons_self] at hk
            cases hk
            exact hscmd
          · rw [lookup_cons_ne _ _ hkk] at hk
            exact hfil _ _ hk
        have hfil1 : ∀ k cmd, st1.cmds.lookup k = some cmd →
            cmd.lastStatusPayload = none :=
          registerLoop_filters caps.switches (initReg ignored) st1 fuel h1
            (by intro k cmd hk; simp [initReg, List.lookup] at hk)
        have hfil3 : ∀ k cmd, st3.cmds.lookup k = some cmd →
            cmd.lastStatusPayload = none :=
          registerLoop_filters caps.rgbbulbs st2 st3 fuel h3 (hfil2 hfil1)
        by_cases hrgb : caps.rgbbulbs.isEmpty
        · rw [if_pos hrgb] at hok
          have hmono4 : ∀ k, (st3.cmds.lookup k).isSome = true →
              (st.cmds.lookup k).isSome = true :=
            fun k hk => registerLoop_mono caps.dimmers st3 st fuel hok k hk
          refine ⟨?_, ?_, ?_, ?_⟩
          · intro p hp
            exact hmono4 _ (registerLoop_mono caps.rgbbulbs st2 st3 fuel h3 _
              (hmono2 _ (registerLoop_complete caps.switches (initReg ignored) st1 fuel
                h1 p hp)))
          · intro p hp
            exact hmono4 _ (registerLoop_complete caps.rgbbulbs st2 st3 fuel h3 p hp)
          · intro _ p hp
            exact registerLoop_complete caps.dimmers st3 st fuel hok p hp
          · exact registerLoop_filters caps.dimmers st3 st fuel hok hfil3
        · rw [if_neg hrgb] at hok
          cases hok
          refine ⟨?_, ?_, ?_, hfil3⟩
          · intro p hp
            exact registerLoop_mono caps.rgbbulbs st2 st fuel h3 _
              (hmono2 _ (registerLoop_complete caps.switches (initReg ignored) st1 fuel
                h1 p hp))
          · intro p hp
            exact registerLoop_complete caps.rgbbulbs st2 st fuel h3 p hp
          · intro hre
            rw [hre] at hrgb
            simp at hrgb

/-- Witness for C9 (amended): on a device with switch id 5 and dimmer id 6 and
no RGB bulb, successful registration binds both, with fresh change filters. -/
theorem c9_witness :
    (c9wState.cmds.lookup (CmdKey.value 5)).isSome = true ∧
    (c9wState.cmds.lookup (CmdKey.value 6)).isSome = true := by
  have hok : register c9wCaps [] 9 = .ok c9wState := by rfl
  have h := c9_registration c9wCaps [] 9 c9wState hok
  exact ⟨h.1 ⟨5, "sw"⟩ (by decide), h.2.2.1 rfl ⟨6, "dim"⟩ (by decide)⟩

/-- C10: `SwitchAction.action` never raises for any payload: the membership
test `data in [b"ON", b"True"]` is total, and the switch is set on exactly
when the raw payload is `b"ON"` or `b"True"`; every other payload — including
the empty payload — turns the switch off. -/
theorem c10_switch_payload (data : List Nat) :
    (∃ b : Bool, switch_action data = .ok b) ∧
    (switch_action data = .ok true ↔ (data = bON ∨ data = bTrue)) ∧
    switch_action [] = .ok false := by
  refine ⟨⟨decide (data = bON ∨ data = bTrue), rfl⟩, ?_, by rfl⟩
  constructor
  · intro h
    have hb : decide (data = bON ∨ data = bTrue) = true := by
      injection h with h1
    exact of_decide_eq_true hb
  · intro h
    unfold switch_action
    rw [decide_eq_true h]

/-- Witness for C3: with the healing flag set and the 5-minute throttle
blocking the opportunistic repair check, a dimmer event is fully gated and a
command message invokes nothing. -/
theorem c3_witness :
    value_update 0 ⟨true, .ok ()⟩ missingMethodHandlers ⟨"n1", "User", "l", 38⟩
      ⟨true, 0, 0, 1, [], []⟩ =
      ((check_for_repair 0 ⟨true, .ok ()⟩ ⟨true, 0, 0, 1, [], []⟩).1, [],
        (check_for_repair 0 ⟨true, .ok ()⟩ ⟨true, 0, 0, 1, [], []⟩).2) ∧
    (check_for_repair 0 ⟨true, .ok ()⟩ ⟨true, 0, 0, 1, [], []⟩).1.nodes =
      (⟨true, 0, 0, 1, [], []⟩ : BridgeState).nodes ∧
    _on_message true [] "t" "d" = .ok false :=
  c3_healing_gates 0 ⟨true, .ok ()⟩ missingMethodHandlers ⟨"n1", "User", "l", 38⟩
    ⟨true, 0, 0, 1, [], []⟩ [] "t" "d" (by rfl)
